import Mathlib

/-
  Shallow embedding of the xmt terminal-output formatting library
  (source files: src/xmt.rs, src/config.rs, src/global.rs).

  Output is modelled as a list of OutEvent values: each event records the
  target stream, the written text, the color applied to the whole line
  (none when no color is applied), and whether a line terminator follows.
  Standard-input reads are modelled by passing the line(s) that would be
  read as explicit arguments.
-/

namespace Xmt

/-- Embeds colored::Color (the named colors plus TrueColor). -/
inductive Color where
  | black | red | green | yellow | blue | magenta | purple | cyan | white
  | brightBlack | brightRed | brightGreen | brightYellow | brightBlue
  | brightMagenta | brightCyan | brightWhite
  | trueColor (r g b : Nat)
deriving DecidableEq, Repr

/-- Embeds config.rs Level: the closed set of output levels. -/
inductive Level where
  | Normal | Prompt | Success | Detail | Warn | Error
deriving DecidableEq, Repr

/-- Embeds config.rs OutputMode. -/
inductive OutputMode where
  | Text | Tree | JSON
deriving DecidableEq, Repr

/-- Embeds config.rs Style. The Rust field named like the Lean keyword for
prefix notation is renamed to pfx here. -/
structure Style where
  pfx : Option String
  color : Color
deriving DecidableEq, Repr

/-- Embeds config.rs Config. The HashMap theme is modelled by its lookup
function (HashMap::get). -/
structure Config where
  output : OutputMode
  theme : Level → Option Style

/-- Embeds Config::default(): Text mode, empty theme. -/
def Config.default : Config :=
  { output := OutputMode.Text, theme := fun _ => none }

/-- Embeds xmt.rs XMT: configuration, indentation depth, and the two TTY
flags snapshotted at construction. -/
structure XMT where
  cfg : Config
  indent_level : Nat
  stdout_tty : Bool
  stderr_tty : Bool

/-- The target stream of a write. -/
inductive OutStream where
  | stdout | stderr
deriving DecidableEq, Repr

/-- One write performed by the formatter: stream, text, color applied to
the whole text (none on the plain fallback path), trailing newline flag. -/
structure OutEvent where
  stream : OutStream
  text : String
  color : Option Color
  newline : Bool
deriving DecidableEq, Repr

/-- Embeds xmt.rs DEFAULT_PRINT_STYLE: white, marker "+". -/
def DEFAULT_PRINT_STYLE : Style := { pfx := some "+", color := Color.white }

/-- Embeds xmt.rs DEFAULT_PROMPT_STYLE: white, marker "+". -/
def DEFAULT_PROMPT_STYLE : Style := { pfx := some "+", color := Color.white }

/-- Embeds xmt.rs DEFAULT_SUCCESS_STYLE: green, marker "✔". -/
def DEFAULT_SUCCESS_STYLE : Style := { pfx := some "✔", color := Color.green }

/-- Embeds xmt.rs DEFAULT_WARN_STYLE: yellow, marker "!". -/
def DEFAULT_WARN_STYLE : Style := { pfx := some "!", color := Color.yellow }

/-- Embeds xmt.rs DEFAULT_ERR_STYLE: red, marker "!". -/
def DEFAULT_ERR_STYLE : Style := { pfx := some "!", color := Color.red }

/-- The fixed 4-character indent marker appended per level in make_padding. -/
def indentMarker : String := "|   "

/-- n concatenated copies of the indent marker (the loop in make_padding). -/
def padding : Nat → String
  | 0 => ""
  | Nat.succ n => padding n ++ indentMarker

/-- Embeds XMT::make_padding. -/
def XMT.make_padding (x : XMT) : String := padding x.indent_level

/-- Embeds XMT::is_json_output. -/
def XMT.is_json_output (x : XMT) : Bool := decide (x.cfg.output = OutputMode.JSON)

/-- The shared line composition of the print helpers:
with a marker, padding ++ marker ++ " " ++ msg; without, padding ++ " " ++ msg. -/
def composeLine (pad : String) (pm : Option String) (msg : String) : String :=
  match pm with
  | some mkr => pad ++ mkr ++ " " ++ msg
  | none => pad ++ " " ++ msg

/-- Embeds XMT::print_stdout. -/
def XMT.print_stdout (x : XMT) (msg : String) (pm : Option String) (c : Color) :
    List OutEvent :=
  if x.is_json_output then []
  else if x.stdout_tty then
    [{ stream := OutStream.stdout, text := composeLine x.make_padding pm msg,
       color := some c, newline := true }]
  else
    [{ stream := OutStream.stdout, text := msg, color := none, newline := true }]

/-- Embeds XMT::print_stderr. -/
def XMT.print_stderr (x : XMT) (msg : String) (pm : Option String) (c : Color) :
    List OutEvent :=
  if x.is_json_output then []
  else if x.stderr_tty then
    [{ stream := OutStream.stderr, text := composeLine x.make_padding pm msg,
       color := some c, newline := true }]
  else
    [{ stream := OutStream.stderr, text := msg, color := none, newline := true }]

/-- Embeds XMT::print_sameline (no trailing newline; branches on the
stdout TTY flag, writes to stdout). -/
def XMT.print_sameline (x : XMT) (msg : String) (pm : Option String) (c : Color) :
    List OutEvent :=
  if x.is_json_output then []
  else if x.stdout_tty then
    [{ stream := OutStream.stdout, text := composeLine x.make_padding pm msg,
       color := some c, newline := false }]
  else
    [{ stream := OutStream.stdout, text := msg, color := none, newline := false }]

/-- Embeds XMT::print (Level::Normal, falling back to DEFAULT_PRINT_STYLE). -/
def XMT.print (x : XMT) (msg : String) : List OutEvent :=
  let style := (x.cfg.theme Level.Normal).getD DEFAULT_PRINT_STYLE
  x.print_stdout msg style.pfx style.color

/-- Embeds XMT::detail: resolves the Level::Detail style (same default as
print), then returns early when the mode is JSON or stdout is not a TTY,
else renders inline like print_stdout. -/
def XMT.detail (x : XMT) (msg : String) : List OutEvent :=
  let style := (x.cfg.theme Level.Detail).getD DEFAULT_PRINT_STYLE
  if x.is_json_output || !x.stdout_tty then []
  else
    [{ stream := OutStream.stdout, text := composeLine x.make_padding style.pfx msg,
       color := some style.color, newline := true }]

/-- Embeds XMT::success (Level::Success, default DEFAULT_SUCCESS_STYLE). -/
def XMT.success (x : XMT) (msg : String) : List OutEvent :=
  let style := (x.cfg.theme Level.Success).getD DEFAULT_SUCCESS_STYLE
  x.print_stdout msg style.pfx style.color

/-- Embeds XMT::warn (Level::Warn, default DEFAULT_WARN_STYLE). -/
def XMT.warn (x : XMT) (msg : String) : List OutEvent :=
  let style := (x.cfg.theme Level.Warn).getD DEFAULT_WARN_STYLE
  x.print_stdout msg style.pfx style.color

/-- Embeds XMT::error (Level::Error, default DEFAULT_ERR_STYLE, stderr). -/
def XMT.error (x : XMT) (msg : String) : List OutEvent :=
  let style := (x.cfg.theme Level.Error).getD DEFAULT_ERR_STYLE
  x.print_stderr msg style.pfx style.color

/-- What XMT::out does with the value: which serialization/rendering path
runs. unreachableBranch embeds the unreachable arm of the match. -/
inductive OutAction (S : Type) where
  | jsonPretty (v : S)
  | jsonCompact (v : S)
  | tree (v : S)
  | display (v : S)
  | unreachableBranch
deriving DecidableEq, Repr

/-- Embeds XMT::out: JSON mode or non-TTY stdout takes the JSON path
(pretty when stdout is a TTY, compact when not); otherwise dispatch on the
configured mode. -/
def XMT.out {S : Type} (x : XMT) (v : S) : OutAction S :=
  if x.is_json_output || !x.stdout_tty then
    if x.stdout_tty then OutAction.jsonPretty v else OutAction.jsonCompact v
  else
    match x.cfg.output with
    | OutputMode.Tree => OutAction.tree v
    | OutputMode.Text => OutAction.display v
    | OutputMode.JSON => OutAction.unreachableBranch

/-- Embeds XMT::nest: a copy with indent_level incremented. -/
def XMT.nest (x : XMT) : XMT := { x with indent_level := x.indent_level + 1 }

/-- Errors surfaced by the interactive operations. unsupported embeds the
io::ErrorKind::Unsupported error ("interactive features are disabled when
not in TTY mode"); endOfScript marks exhausting the supplied stdin lines
(the real read_line would block or read EOF there). -/
inductive IoErr where
  | unsupported
  | endOfScript
deriving DecidableEq, Repr

/-- Rust char::is_whitespace (the Unicode White_Space set), used by
str::trim. -/
def isRustWhitespace (c : Char) : Bool :=
  let n := c.toNat
  decide ((9 ≤ n ∧ n ≤ 13) ∨ n = 32 ∨ n = 133 ∨ n = 160 ∨ n = 5760 ∨
    (8192 ≤ n ∧ n ≤ 8202) ∨ n = 8232 ∨ n = 8233 ∨ n = 8239 ∨ n = 8287 ∨ n = 12288)

/-- Embeds str::trim: strip leading and trailing whitespace. -/
def rustTrim (s : String) : String :=
  String.mk (((s.toList.dropWhile isRustWhitespace).reverse.dropWhile
    isRustWhitespace).reverse)

/-- Embeds u8 ASCII lowercasing of one char (A-Z mapped down, rest kept). -/
def asciiLowerChar (c : Char) : Char :=
  if 65 ≤ c.toNat ∧ c.toNat ≤ 90 then Char.ofNat (c.toNat + 32) else c

/-- Embeds str::to_ascii_lowercase. -/
def asciiLower (s : String) : String := String.mk (s.toList.map asciiLowerChar)

/-- Embeds XMT::prompt_yn. The line that read_line would read is passed
explicitly; the result pairs the returned value with the written output. -/
def XMT.prompt_yn (x : XMT) (msg : String) (dflt : Bool) (line : String) :
    Except IoErr Bool × List OutEvent :=
  if !x.stdout_tty then (Except.error IoErr.unsupported, [])
  else
    let style := (x.cfg.theme Level.Prompt).getD DEFAULT_PROMPT_STYLE
    let rendered := if dflt then msg ++ " [Y/n] - " else msg ++ " [y/N] - "
    let ev := x.print_sameline rendered style.pfx style.color
    let user_pick := asciiLower (rustTrim line)
    if dflt then (Except.ok (user_pick != "n"), ev)
    else (Except.ok (user_pick == "y"), ev)

/-- Embeds XMT::prompt: TTY guard, sameline render of msg with the Prompt
style, then return the trimmed line read from stdin. -/
def XMT.prompt (x : XMT) (msg : String) (line : String) :
    Except IoErr String × List OutEvent :=
  if !x.stdout_tty then (Except.error IoErr.unsupported, [])
  else
    let style := (x.cfg.theme Level.Prompt).getD DEFAULT_PROMPT_STYLE
    (Except.ok (rustTrim line), x.print_sameline msg style.pfx style.color)

/-- usize::MAX on the 64-bit targets the crate builds for. -/
def USIZE_MAX : Nat := 2 ^ 64 - 1

/-- Digit-string accumulation used by the usize parse model. -/
def digitsToNat : List Char → Nat → Nat
  | [], acc => acc
  | c :: rest, acc => digitsToNat rest (acc * 10 + (c.toNat - 48))

/-- Embeds str::parse::<usize>: an optional leading plus sign, then one or
more ASCII digits, value at most usize::MAX; anything else is a parse
error. -/
def parse_usize (s : String) : Option Nat :=
  let cs := s.toList
  let ds := match cs with
    | '+' :: rest => rest
    | l => l
  if !ds.isEmpty && ds.all Char.isDigit then
    let v := digitsToNat ds 0
    if v ≤ USIZE_MAX then some v else none
  else none

/-- The `idx - 1` step of XMT::pick on usize, with the wrapping semantics
of release builds: 0 wraps to usize::MAX (a debug build would panic on the
underflow instead). -/
def usizeWrapSub1 (n : Nat) : Nat := (n + 2 ^ 64 - 1) % 2 ^ 64

/-- Embeds the selection loop of XMT::pick, consuming one scripted stdin
line per iteration: prompt, parse as usize, subtract 1, re-prompt with an
error message when out of range or unparsable, break with the index
otherwise. -/
def XMT.pick_loop (x : XMT) (items : List String) :
    List String → Except IoErr Nat × List OutEvent
  | [] => (Except.error IoErr.endOfScript, [])
  | line :: rest =>
    match x.prompt "Enter your pick: " line with
    | (Except.error e, ev) => (Except.error e, ev)
    | (Except.ok pick, ev) =>
      match parse_usize pick with
      | some idxRaw =>
        let idx := usizeWrapSub1 idxRaw
        if items.length ≤ idx then
          let ev2 := x.error "pick is out of bounds"
          let r := x.pick_loop items rest
          (r.1, ev ++ ev2 ++ r.2)
        else
          (Except.ok idx, ev)
      | none =>
        let ev2 := x.error "pick must be a positive integer"
        let r := x.pick_loop items rest
        (r.1, ev ++ ev2 ++ r.2)

/-- Embeds XMT::pick. Items are modelled by their display strings; the
guard returns the unsupported error when stdout IS a TTY, exactly as the
source does; otherwise the menu is printed and the selection loop runs on
the scripted input lines. On a successful loop exit the item at the
returned index is in bounds, modelled with getD. -/
def XMT.pick (x : XMT) (msg : String) (items : List String)
    (inputs : List String) : Except IoErr String × List OutEvent :=
  if x.stdout_tty then (Except.error IoErr.unsupported, [])
  else
    let ev0 := x.print msg
    let evItems :=
      (items.enum.map (fun p => x.print ("[" ++ toString (p.1 + 1) ++ "] - " ++ p.2))).flatten
    let r := x.pick_loop items inputs
    match r.1 with
    | Except.error e => (Except.error e, ev0 ++ evItems ++ r.2)
    | Except.ok idx => (Except.ok (items.getD idx ""), ev0 ++ evItems ++ r.2)

/-- Embeds global.rs nest: clone the shared instance (orig), print the
header through orig, install orig.nest() as the shared state, run body,
then restore orig. body receives the installed state and returns the
outcome together with the state it leaves installed; Except.error models a
panic unwinding out of body, on which the source's restore statement is
skipped, so the state body left installed remains. Result: (outcome, final
shared state, header output). -/
def nestScope {E T : Type} (msg : String) (body : XMT → Except E T × XMT)
    (s : XMT) : Except E T × XMT × List OutEvent :=
  let orig := s
  let headerEv := orig.print msg
  let nested := orig.nest
  match body nested with
  | (Except.ok t, _) => (Except.ok t, orig, headerEv)
  | (Except.error e, s2) => (Except.error e, s2, headerEv)

/-- A formatter with the given mode and TTY flags, empty theme, depth 0. -/
def sampleXMT (mode : OutputMode) (outTty errTty : Bool) : XMT :=
  { cfg := { output := mode, theme := fun _ => none },
    indent_level := 0, stdout_tty := outTty, stderr_tty := errTty }

/-- Claim C6: nest() is pure and additive: f.nest() equals f except that
indent_level is f.indent_level + 1 (configuration and both TTY flags
unchanged), f.nest().nest() has indent_level exactly f.indent_level + 2,
and f itself is unchanged (nest builds a copy; the receiver is untouched). -/
theorem nest_pure_additive (f : XMT) :
    f.nest.cfg = f.cfg ∧ f.nest.indent_level = f.indent_level + 1 ∧
    f.nest.stdout_tty = f.stdout_tty ∧ f.nest.stderr_tty = f.stderr_tty ∧
    f.nest.nest.indent_level = f.indent_level + 2 :=
  ⟨rfl, rfl, rfl, rfl, rfl⟩

/-- Claim C2: with output mode JSON, each of print, detail, success, warn
and error writes nothing at all, for every message, theme, indent level
and TTY flags. -/
theorem json_mode_suppresses_leveled_prints (x : XMT) (msg : String)
    (h : x.cfg.output = OutputMode.JSON) :
    x.print msg = [] ∧ x.detail msg = [] ∧ x.success msg = [] ∧
    x.warn msg = [] ∧ x.error msg = [] := by
  refine ⟨?_, ?_, ?_, ?_, ?_⟩ <;>
    simp [XMT.print, XMT.detail, XMT.success, XMT.warn, XMT.error,
      XMT.print_stdout, XMT.print_stderr, XMT.is_json_output, h]

/-- Witness for C2 at a concrete JSON-mode formatter. -/
theorem json_mode_suppresses_leveled_prints_witness :
    (sampleXMT OutputMode.JSON true true).cfg.output = OutputMode.JSON ∧
    ((sampleXMT OutputMode.JSON true true).print "hello" = [] ∧
     (sampleXMT OutputMode.JSON true true).detail "hello" = [] ∧
     (sampleXMT OutputMode.JSON true true).success "hello" = [] ∧
     (sampleXMT OutputMode.JSON true true).warn "hello" = [] ∧
     (sampleXMT OutputMode.JSON true true).error "hello" = []) :=
  ⟨rfl, json_mode_suppresses_leveled_prints (sampleXMT OutputMode.JSON true true)
    "hello" rfl⟩

/-- Claim C3: out(value) dispatch: JSON mode with interactive stdout gives
pretty JSON; non-interactive stdout gives compact JSON regardless of the
configured mode; Tree mode with interactive stdout renders the tree; Text
mode with interactive stdout prints the display string. -/
theorem out_dispatch {S : Type} (x : XMT) (v : S) :
    (x.cfg.output = OutputMode.JSON → x.stdout_tty = true →
      x.out v = OutAction.jsonPretty v) ∧
    (x.stdout_tty = false → x.out v = OutAction.jsonCompact v) ∧
    (x.cfg.output = OutputMode.Tree → x.stdout_tty = true →
      x.out v = OutAction.tree v) ∧
    (x.cfg.output = OutputMode.Text → x.stdout_tty = true →
      x.out v = OutAction.display v) := by
  refine ⟨?_, ?_, ?_, ?_⟩ <;> intro h1 <;>
    first
      | (intro h2; simp [XMT.out, XMT.is_json_output, h1, h2])
      | simp [XMT.out, XMT.is_json_output, h1]

/-- Witness for C3 on four concrete formatters covering each branch. -/
theorem out_dispatch_witness :
    ((sampleXMT OutputMode.JSON true true).out (5 : Nat) = OutAction.jsonPretty 5) ∧
    ((sampleXMT OutputMode.Text false true).out (5 : Nat) = OutAction.jsonCompact 5) ∧
    ((sampleXMT OutputMode.Tree true true).out (5 : Nat) = OutAction.tree 5) ∧
    ((sampleXMT OutputMode.Text true true).out (5 : Nat) = OutAction.display 5) :=
  ⟨(out_dispatch (sampleXMT OutputMode.JSON true true) 5).1 rfl rfl,
   (out_dispatch (sampleXMT OutputMode.Text false true) 5).2.1 rfl,
   (out_dispatch (sampleXMT OutputMode.Tree true true) 5).2.2.1 rfl rfl,
   (out_dispatch (sampleXMT OutputMode.Text true true) 5).2.2.2 rfl rfl⟩

/-- Claim C1 (code bug): with interactive stdout, where prompt succeeds
(returning the trimmed line), pick returns the environment-unsupported
error immediately: its TTY guard is inverted relative to prompt and
prompt_yn, contradicting its own doc comment. -/
theorem pick_tty_guard_inverted (x : XMT) (msg : String) (items : List String)
    (inputs : List String) (line : String) (h : x.stdout_tty = true) :
    x.pick msg items inputs = (Except.error IoErr.unsupported, []) ∧
    (x.prompt msg line).1 = Except.ok (rustTrim line) := by
  constructor
  · simp [XMT.pick, h]
  · simp [XMT.prompt, h]

/-- Witness for C1 at a concrete interactive formatter. -/
theorem pick_tty_guard_inverted_witness :
    (sampleXMT OutputMode.Text true true).stdout_tty = true ∧
    ((sampleXMT OutputMode.Text true true).pick "Pick one" ["foo", "bar", "baz"]
        ["2"] = (Except.error IoErr.unsupported, []) ∧
     ((sampleXMT OutputMode.Text true true).prompt "Pick one" "2").1 =
        Except.ok (rustTrim "2")) :=
  ⟨rfl, pick_tty_guard_inverted (sampleXMT OutputMode.Text true true) "Pick one"
    ["foo", "bar", "baz"] ["2"] "2" rfl⟩

/-- Claim C4: with interactive stdout, prompt_yn(msg, true) returns false
exactly when the trimmed ASCII-lowercased input equals "n" and true for
every other input, and prompt_yn(msg, false) returns true exactly when the
trimmed ASCII-lowercased input equals "y" and false otherwise. -/
theorem prompt_yn_answer_semantics (x : XMT) (msg line : String)
    (h : x.stdout_tty = true) :
    ((x.prompt_yn msg true line).1 = Except.ok false ↔
      asciiLower (rustTrim line) = "n") ∧
    ((x.prompt_yn msg true line).1 = Except.ok true ↔
      asciiLower (rustTrim line) ≠ "n") ∧
    ((x.prompt_yn msg false line).1 = Except.ok true ↔
      asciiLower (rustTrim line) = "y") ∧
    ((x.prompt_yn msg false line).1 = Except.ok false ↔
      asciiLower (rustTrim line) ≠ "y") := by
  refine ⟨?_, ?_, ?_, ?_⟩ <;>
    simp [XMT.prompt_yn, h, bne_eq_false_iff_eq, bne_iff_ne, beq_iff_eq]

/-- Witness for C4: default yes with inputs "no", "" and " N ", default no
with input "". -/
theorem prompt_yn_answer_semantics_witness :
    (sampleXMT OutputMode.Text true true).stdout_tty = true ∧
    ((sampleXMT OutputMode.Text true true).prompt_yn "Continue?" true "no").1 =
      Except.ok true ∧
    ((sampleXMT OutputMode.Text true true).prompt_yn "Continue?" true "").1 =
      Except.ok true ∧
    ((sampleXMT OutputMode.Text true true).prompt_yn "Continue?" true " N ").1 =
      Except.ok false ∧
    ((sampleXMT OutputMode.Text true true).prompt_yn "Continue?" false "").1 =
      Except.ok false :=
  ⟨rfl,
   (prompt_yn_answer_semantics (sampleXMT OutputMode.Text true true) "Continue?"
     "no" rfl).2.1.mpr (by decide),
   (prompt_yn_answer_semantics (sampleXMT OutputMode.Text true true) "Continue?"
     "" rfl).2.1.mpr (by decide),
   (prompt_yn_answer_semantics (sampleXMT OutputMode.Text true true) "Continue?"
     " N " rfl).1.mpr (by decide),
   (prompt_yn_answer_semantics (sampleXMT OutputMode.Text true true) "Continue?"
     "" rfl).2.2.2.mpr (by decide)⟩

/-- Claim C10: with output mode JSON and interactive stdout, prompt and
prompt_yn do not return the unsupported error: they write nothing (the
sameline render is suppressed by the JSON guard) but still compute their
answer from the line read from stdin. -/
theorem json_mode_prompts_still_read (x : XMT) (msg line : String) (dflt : Bool)
    (h1 : x.cfg.output = OutputMode.JSON) (h2 : x.stdout_tty = true) :
    x.prompt msg line = (Except.ok (rustTrim line), []) ∧
    x.prompt_yn msg dflt line =
      (Except.ok (if dflt then asciiLower (rustTrim line) != "n"
        else asciiLower (rustTrim line) == "y"), []) := by
  constructor
  · simp [XMT.prompt, XMT.print_sameline, XMT.is_json_output, h1, h2]
  · cases dflt <;>
      simp [XMT.prompt_yn, XMT.print_sameline, XMT.is_json_output, h1, h2]

/-- Witness for C10 at a concrete JSON-mode interactive formatter. -/
theorem json_mode_prompts_still_read_witness :
    (sampleXMT OutputMode.JSON true true).cfg.output = OutputMode.JSON ∧
    (sampleXMT OutputMode.JSON true true).stdout_tty = true ∧
    ((sampleXMT OutputMode.JSON true true).prompt "Name?" " ada " =
      (Except.ok (rustTrim " ada "), []) ∧
     (sampleXMT OutputMode.JSON true true).prompt_yn "Sure?" true " ada " =
      (Except.ok (if true then asciiLower (rustTrim " ada ") != "n"
        else asciiLower (rustTrim " ada ") == "y"), [])) :=
  ⟨rfl, rfl, json_mode_prompts_still_read (sampleXMT OutputMode.JSON true true)
    "Sure?" " ada " true rfl rfl⟩

/-- Claim C9: every Level with no Theme entry falls back to its built-in
default Style: Normal and Prompt white with marker "+", Success green with
"✔", Warn yellow with "!", Error red with "!", Detail the same default as
Normal. -/
theorem theme_fallback_defaults (x : XMT) (msg line : String) :
    (x.cfg.theme Level.Normal = none →
      x.print msg = x.print_stdout msg (some "+") Color.white) ∧
    (x.cfg.theme Level.Prompt = none → x.stdout_tty = true →
      x.prompt msg line =
        (Except.ok (rustTrim line), x.print_sameline msg (some "+") Color.white)) ∧
    (x.cfg.theme Level.Success = none →
      x.success msg = x.print_stdout msg (some "✔") Color.green) ∧
    (x.cfg.theme Level.Warn = none →
      x.warn msg = x.print_stdout msg (some "!") Color.yellow) ∧
    (x.cfg.theme Level.Error = none →
      x.error msg = x.print_stderr msg (some "!") Color.red) ∧
    (x.cfg.theme Level.Detail = none →
      x.detail msg = if x.is_json_output || !x.stdout_tty then []
        else [⟨OutStream.stdout, composeLine x.make_padding (some "+") msg,
          some Color.white, true⟩]) := by
  refine ⟨?_, ?_, ?_, ?_, ?_, ?_⟩
  · intro h; simp [XMT.print, h, DEFAULT_PRINT_STYLE]
  · intro h htty; simp [XMT.prompt, h, htty, DEFAULT_PROMPT_STYLE]
  · intro h; simp [XMT.success, h, DEFAULT_SUCCESS_STYLE]
  · intro h; simp [XMT.warn, h, DEFAULT_WARN_STYLE]
  · intro h; simp [XMT.error, h, DEFAULT_ERR_STYLE]
  · intro h; simp [XMT.detail, h, DEFAULT_PRINT_STYLE]

/-- Witness for C9 at a concrete formatter with an empty theme. -/
theorem theme_fallback_defaults_witness :
    ((sampleXMT OutputMode.Text true true).cfg.theme Level.Normal = none) ∧
    ((sampleXMT OutputMode.Text true true).print "m" =
      (sampleXMT OutputMode.Text true true).print_stdout "m" (some "+") Color.white) ∧
    ((sampleXMT OutputMode.Text true true).prompt "m" "ln" =
      (Except.ok (rustTrim "ln"),
       (sampleXMT OutputMode.Text true true).print_sameline "m" (some "+") Color.white)) ∧
    ((sampleXMT OutputMode.Text true true).success "m" =
      (sampleXMT OutputMode.Text true true).print_stdout "m" (some "✔") Color.green) ∧
    ((sampleXMT OutputMode.Text true true).warn "m" =
      (sampleXMT OutputMode.Text true true).print_stdout "m" (some "!") Color.yellow) ∧
    ((sampleXMT OutputMode.Text true true).error "m" =
      (sampleXMT OutputMode.Text true true).print_stderr "m" (some "!") Color.red) ∧
    ((sampleXMT OutputMode.Text true true).detail "m" =
      if (sampleXMT OutputMode.Text true true).is_json_output ||
          !(sampleXMT OutputMode.Text true true).stdout_tty then []
        else [⟨OutStream.stdout,
          composeLine (sampleXMT OutputMode.Text true true).make_padding (some "+") "m",
          some Color.white, true⟩]) :=
  ⟨rfl,
   (theme_fallback_defaults (sampleXMT OutputMode.Text true true) "m" "ln").1 rfl,
   (theme_fallback_defaults (sampleXMT OutputMode.Text true true) "m" "ln").2.1 rfl rfl,
   (theme_fallback_defaults (sampleXMT OutputMode.Text true true) "m" "ln").2.2.1 rfl,
   (theme_fallback_defaults (sampleXMT OutputMode.Text true true) "m" "ln").2.2.2.1 rfl,
   (theme_fallback_defaults (sampleXMT OutputMode.Text true true) "m" "ln").2.2.2.2.1 rfl,
   (theme_fallback_defaults (sampleXMT OutputMode.Text true true) "m" "ln").2.2.2.2.2 rfl⟩

/-- A body for the nested-scope theorems that fails (models a panic)
while leaving the installed state unchanged. -/
def failingBody : XMT → Except Nat Nat × XMT := fun s => (Except.error 0, s)

/-- Counterexample to claim C5 as stated: with a body that throws, the
shared state after nestScope does not return to its pre-call value — the
source has no guaranteed-cleanup construct, so unwinding skips the
restore and the nested copy (indent 1) stays installed. -/
theorem nest_scope_claim_counterexample :
    (nestScope "Begin" failingBody (sampleXMT OutputMode.Text true true)).2.1.indent_level ≠
      (sampleXMT OutputMode.Text true true).indent_level := by
  decide

/-- Claim C5 as amended: when body returns normally, nestScope restores
the shared formatter exactly to its pre-call state (even when body itself
performs further nested scopes, since body is arbitrary here) and returns
exactly body's value; when body throws, the restore is skipped and the
state body left installed remains. -/
theorem nest_scope_restores_on_normal_return {E T : Type} (msg : String)
    (body : XMT → Except E T × XMT) (s : XMT) (t : T) (s2 : XMT)
    (h : body s.nest = (Except.ok t, s2)) :
    nestScope msg body s = (Except.ok t, s, s.print msg) := by
  simp [nestScope, h]

/-- A body that itself runs a further nested scope before returning. -/
def recursingBody : XMT → Except Nat Nat × XMT := fun s =>
  match nestScope "inner" (fun s2 => (Except.ok 5, s2)) s with
  | (r, s3, _) => (r, s3)

/-- Witness for C5 (amended) with a body that performs a nested scope. -/
theorem nest_scope_restores_on_normal_return_witness :
    nestScope "outer" recursingBody (sampleXMT OutputMode.Text true true) =
      (Except.ok 5, sampleXMT OutputMode.Text true true,
       (sampleXMT OutputMode.Text true true).print "outer") :=
  nest_scope_restores_on_normal_return "outer" recursingBody
    (sampleXMT OutputMode.Text true true) 5
    (sampleXMT OutputMode.Text true true).nest rfl

/-- With non-interactive stdout, every iteration of the selection loop
fails: the inner prompt call demands an interactive stdout. -/
theorem pick_loop_error_when_not_tty (x : XMT) (items : List String)
    (h : x.stdout_tty = false) (inputs : List String) :
    ∃ e, (x.pick_loop items inputs).1 = Except.error e := by
  cases inputs with
  | nil => exact ⟨IoErr.endOfScript, rfl⟩
  | cons a rest =>
    refine ⟨IoErr.unsupported, ?_⟩
    simp [XMT.pick_loop, XMT.prompt, h]

/-- Claim C7 (code bug): pick never reaches a successful selection at all.
With interactive stdout its inverted guard errors immediately; with
non-interactive stdout the inner prompt errors on the first loop
iteration. So for every formatter, item list and input script, pick
returns an error rather than the chosen item. -/
theorem pick_never_returns_item (x : XMT) (msg : String)
    (items inputs : List String) :
    ∃ e, (x.pick msg items inputs).1 = Except.error e := by
  cases htty : x.stdout_tty with
  | true => exact ⟨IoErr.unsupported, by simp [XMT.pick, htty]⟩
  | false =>
    obtain ⟨e, he⟩ := pick_loop_error_when_not_tty x items htty inputs
    exact ⟨e, by simp [XMT.pick, htty, he]⟩

/-- The padding of depth n is exactly n concatenated copies of the indent
marker. -/
theorem padding_data (n : Nat) :
    (padding n).data = List.flatten (List.replicate n indentMarker.data) := by
  induction n with
  | zero => rfl
  | succ k ih =>
    show (padding k ++ indentMarker).data = _
    rw [List.replicate_succ' k, List.flatten_append, String.data_append, ih]
    simp

/-- Counterexample to claim C8 as stated: with no prefix marker, the code
still inserts a single space between the indentation and the message —
at indent 0 the rendered text is " hi", not "hi". -/
theorem render_no_marker_counterexample :
    (sampleXMT OutputMode.Text true true).print_stdout "hi" none Color.white =
      [⟨OutStream.stdout, " hi", some Color.white, true⟩] ∧
    (" hi" : String) ≠ "hi" := by
  constructor
  · decide
  · decide

/-- Claim C8 as amended: for a non-JSON mode, rendering to an interactive
stream writes one line composed of indent_level repetitions of the fixed
4-character indent marker, then the prefix marker (if any) and a space,
then the message — with a single space between indentation and message
when there is no marker — colored as a whole and newline-terminated; a
non-interactive stream gets the raw message with a newline and no color,
marker or indentation. -/
theorem render_rule_amended (x : XMT) (msg : String) (pm : Option String)
    (c : Color) (h : x.cfg.output ≠ OutputMode.JSON) :
    (x.stdout_tty = true → x.print_stdout msg pm c =
      [⟨OutStream.stdout, composeLine (padding x.indent_level) pm msg,
        some c, true⟩]) ∧
    (x.stdout_tty = false → x.print_stdout msg pm c =
      [⟨OutStream.stdout, msg, none, true⟩]) ∧
    (x.stderr_tty = true → x.print_stderr msg pm c =
      [⟨OutStream.stderr, composeLine (padding x.indent_level) pm msg,
        some c, true⟩]) ∧
    (x.stderr_tty = false → x.print_stderr msg pm c =
      [⟨OutStream.stderr, msg, none, true⟩]) ∧
    (∀ mkr, composeLine (padding x.indent_level) (some mkr) msg =
      padding x.indent_level ++ mkr ++ " " ++ msg) ∧
    (composeLine (padding x.indent_level) none msg =
      padding x.indent_level ++ " " ++ msg) ∧
    (padding x.indent_level).data =
      List.flatten (List.replicate x.indent_level indentMarker.data) ∧
    indentMarker.data.length = 4 := by
  refine ⟨?_, ?_, ?_, ?_, fun mkr => rfl, rfl, padding_data x.indent_level, rfl⟩ <;>
    intro htty <;>
    simp [XMT.print_stdout, XMT.print_stderr, XMT.is_json_output,
      XMT.make_padding, h, htty]

/-- Witness for C8 (amended) at a twice-nested interactive formatter. -/
theorem render_rule_amended_witness :
    (sampleXMT OutputMode.Text true true).nest.nest.stdout_tty = true ∧
    (sampleXMT OutputMode.Text true true).nest.nest.print_stdout "hi" (some "+")
        Color.white =
      [⟨OutStream.stdout,
        composeLine (padding (sampleXMT OutputMode.Text true true).nest.nest.indent_level)
          (some "+") "hi", some Color.white, true⟩] :=
  ⟨rfl, (render_rule_amended (sampleXMT OutputMode.Text true true).nest.nest "hi"
    (some "+") Color.white (by decide)).1 rfl⟩

end Xmt
